import Mathlib

/-!
Shallow embedding of the Conversation Session Manager of
src/app/page.tsx (Indian Department of Justice website prototype).

The component keeps its state in React useState hooks; those hooks are
embedded as the fields of SessionState.  Each event handler is embedded
as a pure function from the pre-call state (plus explicit outcome
parameters standing for the results of the remote collaborators: the
chat-completion service, the vision-analysis service, the image-upload
endpoint and the translation service) to the post-call state.  A handler
that can crash (an unchecked indexed read on the transcript) returns an
Option.  JavaScript string truthiness is modelled explicitly: the empty
string is falsy.
-/

/-- A chat message, from the Message interface of page.tsx. -/
structure Message where
  role : String
  content : String
  translatedContent : Option String := none
deriving DecidableEq, Repr

/-- A lawyer record, from the Lawyer interface of page.tsx. -/
structure Lawyer where
  name : String
  specialization : String
  phone : String
  email : String
deriving DecidableEq, Repr

/-- The useState hooks of the Home component, collected into one state record. -/
structure SessionState where
  messages : List Message
  inputMessage : String
  isLoading : Bool
  error : Option String
  isMenuOpen : Bool
  selectedLanguage : String
  documentAnalysis : Option String
  isAnalyzing : Bool
  lawyers : List Lawyer
  showLawyers : Bool
deriving DecidableEq, Repr

/-- The initial transcript: one synthetic assistant greeting. -/
def initialMessages : List Message :=
  [{ role := "assistant",
     content := "Hello! How can I assist you with the Indian Department of Justice today?" }]

/-- The initial component state set by the useState initializers. -/
def initialState : SessionState :=
  { messages := initialMessages
    inputMessage := ""
    isLoading := false
    error := none
    isMenuOpen := false
    selectedLanguage := "en"
    documentAnalysis := none
    isAnalyzing := false
    lawyers := []
    showLawyers := false }

/-- JavaScript truthiness of an optional string: undefined and the empty
string are falsy, every other string is truthy. -/
def truthyStr : Option String → Bool
  | none => false
  | some s => s != ""

/-- JavaScript `x || fallback` applied to an optional string response
field: null, undefined and the empty string all yield the fallback. -/
def orFallback (c : Option String) (fb : String) : String :=
  match c with
  | some s => if s = "" then fb else s
  | none => fb

/-- Outcome of a fetch of the translation endpoint, as observed by
translateText: a network failure, an HTTP-level failure (response.ok is
false, carrying the HTTP status), or a parsed JSON body carrying the
responseStatus field and the translated text. -/
inductive FetchOutcome where
  | networkError
  | httpError (status : Nat)
  | ok (responseStatus : Nat) (translatedText : String)
deriving DecidableEq, Repr

/-- translateText of page.tsx: fetch the MyMemory endpoint for the given
text and target language (source language fixed to en); throw on network
failure, on a non-ok HTTP response, and on a body whose responseStatus is
not 200; otherwise return the translated text.  The thrown error is
re-thrown by the catch block, so the function is fallible. -/
def translateText (text targetLang : String) (f : FetchOutcome) : Except Unit String :=
  let _sourceLang := "en"
  let _query := (text, targetLang)
  match f with
  | .networkError => .error ()
  | .httpError _ => .error ()
  | .ok responseStatus translatedText =>
    if responseStatus != 200 then .error ()
    else .ok translatedText

/-- getGroqChatCompletion of page.tsx: throws when the groq client is
null (not initialized); otherwise issues the chat-completion request
with the given messages and either re-throws its error or returns the
first choice content, with a fixed fallback when that content is absent
or empty (JavaScript or-fallback). -/
def getGroqChatCompletion (groqInit : Bool) (msgs : List Message)
    (r : Except Unit (Option String)) : Except Unit String :=
  let _messages := msgs
  if !groqInit then .error ()
  else
    match r with
    | .error _ => .error ()
    | .ok c => .ok (orFallback c "I\x27m sorry, I couldn\x27t generate a response.")

/-- getGroqVisionAnalysis of page.tsx: throws when the groq client is
null; otherwise issues the vision request on the image URL and either
re-throws its error or returns the first choice content, with a fixed
fallback when that content is absent or empty. -/
def getGroqVisionAnalysis (groqInit : Bool) (imageUrl : String)
    (r : Except Unit (Option String)) : Except Unit String :=
  let _url := imageUrl
  if !groqInit then .error ()
  else
    match r with
    | .error _ => .error ()
    | .ok c => .ok (orFallback c "I\x27m sorry, I couldn\x27t analyze the document.")

/-- Outcome of the POST to the /api/upload endpoint as observed by
uploadImage: a network failure, or a response whose ok flag and url
field are given. -/
inductive UploadOutcome where
  | networkError
  | response (ok : Bool) (url : String)
deriving DecidableEq, Repr

/-- uploadImage of page.tsx: POST the file to /api/upload; throw on
network failure or a non-ok response, otherwise return data.url. -/
def uploadImage (file : String) (r : UploadOutcome) : Except Unit String :=
  let _formData := file
  match r with
  | .networkError => .error ()
  | .response ok url => if ok then .ok url else .error ()

/-- The JavaScript String.prototype.trim builtin: drop leading and
trailing whitespace.  Embedded structurally so that it evaluates on
concrete strings. -/
def jsTrim (s : String) : String :=
  String.mk (((s.data.dropWhile Char.isWhitespace).reverse.dropWhile
    Char.isWhitespace).reverse)

/-- The fixed user-facing chat error string of handleSendMessage. -/
def chatErrorMessage : String :=
  "An error occurred while getting the AI response. Please try again."

/-- The fixed user-facing translation error string of handleTranslateMessage. -/
def translateErrorMessage : String :=
  "Failed to translate the message. Please try again."

/-- The fixed user-facing analysis error string of handleFileUpload. -/
def analysisErrorMessage : String :=
  "An error occurred while analyzing the document. Please try again."

/-- The synchronous prefix of handleSendMessage, executed before the
awaited chat-completion call resolves: append the user message built
from the draft, clear the draft, set the chat loading flag, clear the
error. -/
def sendMessageIntermediate (s : SessionState) : SessionState :=
  { s with
    messages := s.messages ++ [{ role := "user", content := s.inputMessage }]
    inputMessage := ""
    isLoading := true
    error := none }

/-- handleSendMessage of page.tsx.  Guard: return unchanged when the
trimmed draft is empty or a chat request is in flight.  Otherwise run
the synchronous prefix, await getGroqChatCompletion on the captured
transcript plus the new user message, and on success append the
assistant reply while on failure set the fixed chat error string; the
finally clause clears the loading flag on both paths.  The Bool of the
result records whether the handler reached the chat-completion call. -/
def handleSendMessage (s : SessionState) (groqInit : Bool)
    (r : Except Unit (Option String)) : SessionState × Bool :=
  if jsTrim s.inputMessage == "" || s.isLoading then (s, false)
  else
    let userMessage : Message := { role := "user", content := s.inputMessage }
    let s1 := sendMessageIntermediate s
    match getGroqChatCompletion groqInit (s.messages ++ [userMessage]) r with
    | .ok aiResponse =>
      ({ s1 with
          messages := s1.messages ++ [{ role := "assistant", content := aiResponse }]
          isLoading := false }, true)
    | .error _ =>
      ({ s1 with error := some chatErrorMessage, isLoading := false }, true)

/-- Result of one handleTranslateMessage call: the post-call state, and
the request actually issued to the translation service, when one was
issued: the source text and the target language of that request. -/
structure TranslateResult where
  state : SessionState
  request : Option (String × String)
deriving DecidableEq, Repr

/-- handleTranslateMessage of page.tsx.  Return unchanged when the
selected language is en.  Otherwise read messages[index] with no bounds
check (none models the TypeError thrown on an out-of-range index).  When
the message carries a truthy cached translation, swap content and
translatedContent in place without contacting the translation service;
otherwise request a translation of the current content into the selected
language, and on success store the original content into
translatedContent and the translated text into content, while on failure
set the fixed translation error string and leave the transcript
untouched. -/
def handleTranslateMessage (s : SessionState) (index : Nat) (f : FetchOutcome) :
    Option TranslateResult :=
  if s.selectedLanguage = "en" then some { state := s, request := none }
  else
    match s.messages[index]? with
    | none => none
    | some messageToTranslate =>
      if truthyStr messageToTranslate.translatedContent then
        let swapped : Message :=
          { messageToTranslate with
            content := messageToTranslate.translatedContent.getD ""
            translatedContent := some messageToTranslate.content }
        some { state := { s with messages := s.messages.set index swapped }
               request := none }
      else
        match translateText messageToTranslate.content s.selectedLanguage f with
        | .ok translatedContent =>
          some { state :=
                   { s with
                     messages := s.messages.set index
                       { messageToTranslate with
                         translatedContent := some messageToTranslate.content
                         content := translatedContent } }
                 request := some (messageToTranslate.content, s.selectedLanguage) }
        | .error _ =>
          some { state := { s with error := some translateErrorMessage }
                 request := some (messageToTranslate.content, s.selectedLanguage) }

/-- The synchronous prefix of handleFileUpload once a file is present:
set the analysis loading flag and clear the error.  The prior analysis
result is not touched here. -/
def fileUploadIntermediate (s : SessionState) : SessionState :=
  { s with isAnalyzing := true, error := none }

/-- handleFileUpload of page.tsx.  Return unchanged when no file is
selected.  Otherwise run the synchronous prefix, upload the file, pass
the returned URL to the vision analysis, and store the analysis result;
a failure of either step sets the fixed analysis error string.  The
finally clause clears the analysis loading flag on both paths. -/
def handleFileUpload (s : SessionState) (file : Option String) (groqInit : Bool)
    (up : UploadOutcome) (vr : Except Unit (Option String)) : SessionState :=
  match file with
  | none => s
  | some f =>
    let s1 := fileUploadIntermediate s
    match uploadImage f up with
    | .error _ => { s1 with error := some analysisErrorMessage, isAnalyzing := false }
    | .ok imageUrl =>
      match getGroqVisionAnalysis groqInit imageUrl vr with
      | .error _ => { s1 with error := some analysisErrorMessage, isAnalyzing := false }
      | .ok analysis => { s1 with documentAnalysis := some analysis, isAnalyzing := false }

/-- handleSearchLawyers of page.tsx: replace the lawyer list with the
fixed three-record fixture and set the show flag. -/
def handleSearchLawyers (s : SessionState) : SessionState :=
  { s with
    lawyers :=
      [ { name := "Adv. Priya Sharma", specialization := "Criminal Law",
          phone := "+91 98765 43210", email := "priya.sharma@legaleagle.com" },
        { name := "Adv. Rajesh Patel", specialization := "Corporate Law",
          phone := "+91 87654 32109", email := "rajesh.patel@legalminds.com" },
        { name := "Adv. Anita Desai", specialization := "Family Law",
          phone := "+91 76543 21098", email := "anita.desai@familymatters.com" } ]
    showLawyers := true }

/-! ## Helper lemmas -/

/-- Writing back the element already stored at an index leaves the list
unchanged. -/
theorem set_self_of_getElem {α : Type} (l : List α) (i : Nat) (a : α)
    (h : l[i]? = some a) : l.set i a = l := by
  induction l generalizing i with
  | nil => simp at h
  | cons x xs ih =>
    cases i with
    | zero =>
      simp only [List.getElem?_cons_zero, Option.some.injEq] at h
      simp [h]
    | succ n =>
      simp only [List.getElem?_cons_succ] at h
      simp [ih n h]

/-- The guard of handleSendMessage is false exactly when the trimmed
draft is non-empty and no chat request is in flight. -/
theorem sendMessage_guard_false (s : SessionState)
    (hne : jsTrim s.inputMessage ≠ "") (hl : s.isLoading = false) :
    (jsTrim s.inputMessage == "" || s.isLoading) = false := by
  simp [hne, hl]

/-! ## Claim theorems -/

/-- C9: when the draft is empty after trimming, or a chat request is
already in flight, handleSendMessage returns with the state unchanged
and without reaching the chat-completion collaborator. -/
theorem sendMessage_guard_noop (s : SessionState) (g : Bool)
    (r : Except Unit (Option String))
    (h : jsTrim s.inputMessage = "" ∨ s.isLoading = true) :
    handleSendMessage s g r = (s, false) := by
  unfold handleSendMessage
  rcases h with h | h <;> simp [h]

/-- C9 witness: a state with a whitespace-only draft is left unchanged. -/
theorem sendMessage_guard_noop_witness :
    handleSendMessage { initialState with inputMessage := "   " } true
        (.ok (some "reply"))
      = ({ initialState with inputMessage := "   " }, false) :=
  sendMessage_guard_noop { initialState with inputMessage := "   " } true
    (.ok (some "reply")) (Or.inl (by decide))

/-- C8: when the selected language is en, handleTranslateMessage is a
no-op for every index: the state is returned unchanged and no request is
issued to the translation service. -/
theorem toggleTranslation_en_noop (s : SessionState) (i : Nat) (f : FetchOutcome)
    (h : s.selectedLanguage = "en") :
    handleTranslateMessage s i f = some { state := s, request := none } := by
  unfold handleTranslateMessage
  simp [h]

/-- C8 witness: toggling the greeting with language en leaves the
initial state unchanged. -/
theorem toggleTranslation_en_noop_witness :
    handleTranslateMessage initialState 0 .networkError
      = some { state := initialState, request := none } :=
  toggleTranslation_en_noop initialState 0 .networkError (by rfl)

/-- C10: with the selected language not en, the unchecked transcript
read of handleTranslateMessage succeeds for every in-bounds index: the
crash branch of the embedding is unreachable. -/
theorem toggleTranslation_inbounds_lookup (s : SessionState) (i : Nat)
    (f : FetchOutcome) (hl : s.selectedLanguage ≠ "en")
    (hi : i < s.messages.length) :
    (handleTranslateMessage s i f).isSome = true := by
  unfold handleTranslateMessage
  rw [if_neg hl, List.getElem?_eq_getElem hi]
  dsimp only
  split
  · rfl
  · split <;> rfl

/-- C10 witness: an in-bounds toggle with language hi does not crash. -/
theorem toggleTranslation_inbounds_lookup_witness :
    (handleTranslateMessage { initialState with selectedLanguage := "hi" } 0
        (.ok 200 "नमस्ते")).isSome = true :=
  toggleTranslation_inbounds_lookup { initialState with selectedLanguage := "hi" } 0
    (.ok 200 "नमस्ते") (by decide) (by decide)

/-- C6: with a non-empty trimmed draft and no chat request in flight,
the synchronous prefix of sendMessage appends exactly one user message
carrying the draft verbatim, sets chat-loading, clears the draft and
clears the prior error; every final state of handleSendMessage extends
that intermediate transcript. -/
theorem sendMessage_appends_user_first (s : SessionState)
    (hne : jsTrim s.inputMessage ≠ "") (hl : s.isLoading = false) :
    (sendMessageIntermediate s).messages
        = s.messages ++ [{ role := "user", content := s.inputMessage,
                           translatedContent := none }] ∧
    (sendMessageIntermediate s).isLoading = true ∧
    (sendMessageIntermediate s).inputMessage = "" ∧
    (sendMessageIntermediate s).error = none ∧
    ∀ (g : Bool) (r : Except Unit (Option String)), ∃ rest,
      (handleSendMessage s g r).1.messages
        = (sendMessageIntermediate s).messages ++ rest := by
  refine ⟨rfl, rfl, rfl, rfl, ?_⟩
  intro g r
  unfold handleSendMessage
  rw [sendMessage_guard_false s hne hl]
  cases hr : getGroqChatCompletion g
      (s.messages ++ [{ role := "user", content := s.inputMessage }]) r with
  | error e =>
    exact ⟨[], by simp [hr]⟩
  | ok t =>
    exact ⟨[{ role := "assistant", content := t }], by simp [hr]⟩

/-- C6 witness: the intermediate state of a concrete send appends the
user message with the draft verbatim. -/
theorem sendMessage_appends_user_first_witness :
    jsTrim "What is bail?" ≠ "" ∧
    (sendMessageIntermediate { initialState with inputMessage := "What is bail?" }).messages
      = initialMessages ++ [{ role := "user", content := "What is bail?",
                              translatedContent := none }] :=
  ⟨by decide,
   (sendMessage_appends_user_first
     { initialState with inputMessage := "What is bail?" } (by decide) rfl).1⟩

/-- C1: with the precondition of sendMessage satisfied, a successful
chat completion grows the transcript by exactly two entries with the
loading flag cleared; a failed one grows it by exactly one entry, sets
the fixed chat error string, and also clears the loading flag. -/
theorem sendMessage_transcript_length (s : SessionState) (g : Bool)
    (r : Except Unit (Option String))
    (hne : jsTrim s.inputMessage ≠ "") (hl : s.isLoading = false) :
    (∀ t, getGroqChatCompletion g
          (s.messages ++ [{ role := "user", content := s.inputMessage }]) r = .ok t →
        (handleSendMessage s g r).1.messages.length = s.messages.length + 2 ∧
        (handleSendMessage s g r).1.isLoading = false) ∧
    (getGroqChatCompletion g
          (s.messages ++ [{ role := "user", content := s.inputMessage }]) r = .error () →
        (handleSendMessage s g r).1.messages.length = s.messages.length + 1 ∧
        (handleSendMessage s g r).1.error = some chatErrorMessage ∧
        (handleSendMessage s g r).1.isLoading = false) := by
  unfold handleSendMessage
  rw [sendMessage_guard_false s hne hl]
  constructor
  · intro t ht
    simp [ht, sendMessageIntermediate]
  · intro he
    simp [he, sendMessageIntermediate]

/-- C1 witness: a concrete successful send grows the one-message initial
transcript to three messages with loading cleared. -/
theorem sendMessage_transcript_length_witness :
    jsTrim "What is bail?" ≠ "" ∧
    (handleSendMessage { initialState with inputMessage := "What is bail?" } true
        (.ok (some "Bail is a temporary release."))).1.messages.length = 3 := by
  refine ⟨by decide, ?_⟩
  have h := sendMessage_transcript_length
    { initialState with inputMessage := "What is bail?" } true
    (.ok (some "Bail is a temporary release.")) (by decide) rfl
  exact (h.1 "Bail is a temporary release." (by rfl)).1

/-- C4: with a target language other than en and a message without a
cached translation, a successful toggle issues one request for the
current content in the selected language, and the updated message keeps
the original content in translatedContent and carries the translated
text as content. -/
theorem toggleTranslation_fetch_success (s : SessionState) (i : Nat) (m : Message)
    (t : String) (hl : s.selectedLanguage ≠ "en") (hm : s.messages[i]? = some m)
    (hnc : m.translatedContent = none) :
    handleTranslateMessage s i (.ok 200 t) =
      some { state := { s with
               messages := s.messages.set i
                   { m with translatedContent := some m.content, content := t } }
             request := some (m.content, s.selectedLanguage) } ∧
    (s.messages.set i { m with translatedContent := some m.content, content := t })[i]?
      = some { m with translatedContent := some m.content, content := t } := by
  have hi : i < s.messages.length := by
    by_contra hcon
    push_neg at hcon
    rw [List.getElem?_eq_none hcon] at hm
    exact Option.noConfusion hm
  constructor
  · unfold handleTranslateMessage
    rw [if_neg hl, hm]
    dsimp only
    rw [hnc]
    rfl
  · exact List.getElem?_set_self hi

/-- C4 witness: translating the greeting into Hindi stores the original
content and the translated text in the expected fields. -/
theorem toggleTranslation_fetch_success_witness :
    ({ initialState with selectedLanguage := "hi" } : SessionState).selectedLanguage ≠ "en" ∧
    handleTranslateMessage { initialState with selectedLanguage := "hi" } 0 (.ok 200 "नमस्ते")
      = some { state := { initialState with
                 selectedLanguage := "hi"
                 messages := initialMessages.set 0
                   { role := "assistant"
                     content := "नमस्ते"
                     translatedContent :=
                       some "Hello! How can I assist you with the Indian Department of Justice today?" } }
               request :=
                 some ("Hello! How can I assist you with the Indian Department of Justice today?",
                       "hi") } :=
  ⟨by decide,
   (toggleTranslation_fetch_success { initialState with selectedLanguage := "hi" } 0
     { role := "assistant",
       content := "Hello! How can I assist you with the Indian Department of Justice today?" }
     "नमस्ते" (by decide) rfl rfl).1⟩

/-- C5: with a target language other than en and a message without a
cached translation, a failed translation request sets the fixed
translation error string and leaves the transcript, the message
included, exactly unchanged. -/
theorem toggleTranslation_fetch_failure (s : SessionState) (i : Nat) (m : Message)
    (f : FetchOutcome) (hl : s.selectedLanguage ≠ "en") (hm : s.messages[i]? = some m)
    (hnc : m.translatedContent = none)
    (hf : translateText m.content s.selectedLanguage f = .error ()) :
    handleTranslateMessage s i f =
      some { state := { s with error := some translateErrorMessage }
             request := some (m.content, s.selectedLanguage) } := by
  unfold handleTranslateMessage
  rw [if_neg hl, hm]
  dsimp only
  rw [hnc]
  dsimp only [truthyStr]
  rw [hf]
  simp

/-- C5 witness: a network failure while translating the greeting into
Hindi only sets the error text. -/
theorem toggleTranslation_fetch_failure_witness :
    ({ initialState with selectedLanguage := "hi" } : SessionState).selectedLanguage ≠ "en" ∧
    handleTranslateMessage { initialState with selectedLanguage := "hi" } 0 .networkError
      = some { state := { initialState with
                 selectedLanguage := "hi"
                 error := some translateErrorMessage }
               request :=
                 some ("Hello! How can I assist you with the Indian Department of Justice today?",
                       "hi") } :=
  ⟨by decide,
   toggleTranslation_fetch_failure { initialState with selectedLanguage := "hi" } 0
     { role := "assistant",
       content := "Hello! How can I assist you with the Indian Department of Justice today?" }
     .networkError (by decide) rfl rfl rfl⟩

/-- C3 counterexample: a message whose content is the empty string but
which carries a cached translation.  The first toggle swaps, leaving an
empty cached field; the empty string is falsy, so the second toggle
issues a fresh request to the translation service and does not restore
the original content. -/
theorem toggleTranslation_twice_counterexample :
    (Option.bind
        (handleTranslateMessage
          { initialState with
              selectedLanguage := "hi"
              messages := [{ role := "assistant", content := "",
                             translatedContent := some "नमस्ते" }] }
          0 (.ok 200 "fresh"))
        (fun o1 =>
          Option.map (fun o2 => (o2.state.messages[0]?, o1.request, o2.request))
            (handleTranslateMessage o1.state 0 (.ok 200 "fresh"))))
      = some (some { role := "assistant", content := "fresh",
                     translatedContent := some "नमस्ते" },
              none, some ("नमस्ते", "hi")) := rfl

/-- C3 amended: for a message whose cached translation and whose content
are both non-empty, toggling twice with an unchanged non-en language
restores the transcript, the addressed message included, byte for byte,
and neither call issues a request to the translation service. -/
theorem toggleTranslation_twice_restores (s : SessionState) (i : Nat) (m : Message)
    (tc : String) (f1 f2 : FetchOutcome)
    (hl : s.selectedLanguage ≠ "en") (hm : s.messages[i]? = some m)
    (htc : m.translatedContent = some tc) (htcne : tc ≠ "") (hcne : m.content ≠ "") :
    ∃ o1 o2, handleTranslateMessage s i f1 = some o1 ∧ o1.request = none ∧
      handleTranslateMessage o1.state i f2 = some o2 ∧ o2.request = none ∧
      o2.state.messages = s.messages ∧ o2.state.messages[i]? = some m := by
  have hi : i < s.messages.length := by
    by_contra hcon
    push_neg at hcon
    rw [List.getElem?_eq_none hcon] at hm
    exact Option.noConfusion hm
  have htm : truthyStr (some tc) = true := by simp [truthyStr, htcne]
  have htm2 : truthyStr (some m.content) = true := by simp [truthyStr, hcne]
  have h1 : handleTranslateMessage s i f1 =
      some { state := { s with
               messages := s.messages.set i
                   { m with content := tc, translatedContent := some m.content } }
             request := none } := by
    unfold handleTranslateMessage
    rw [if_neg hl, hm]
    dsimp only
    rw [htc, htm]
    simp
  have h2 : handleTranslateMessage
      { s with
        messages := s.messages.set i
            { m with content := tc, translatedContent := some m.content } } i f2 =
      some { state := { s with
               messages :=
                 (s.messages.set i
                     { m with content := tc, translatedContent := some m.content }).set i
                   { m with content := m.content, translatedContent := some tc } }
             request := none } := by
    unfold handleTranslateMessage
    dsimp only
    rw [if_neg hl, List.getElem?_set_self hi]
    dsimp only
    rw [htm2]
    simp
  have hmm2 :
      ((s.messages.set i
          { m with content := tc, translatedContent := some m.content }).set i
        { m with content := m.content, translatedContent := some tc }) = s.messages := by
    rw [List.set_set]
    have hrec : ({ m with content := m.content, translatedContent := some tc } : Message) = m := by
      cases m with
      | mk ro co tr =>
        simp only at htc
        subst htc
        rfl
    rw [hrec]
    exact set_self_of_getElem _ _ _ hm
  refine ⟨_, _, h1, rfl, h2, rfl, hmm2, ?_⟩
  dsimp only
  rw [hmm2]
  exact hm

/-- C3 witness: toggling a Hindi-translated greeting twice restores it
with no request issued. -/
theorem toggleTranslation_twice_restores_witness :
    ∃ o1 o2,
      handleTranslateMessage
          { initialState with
              selectedLanguage := "hi"
              messages := [{ role := "assistant", content := "Hello",
                             translatedContent := some "नमस्ते" }] }
          0 .networkError = some o1 ∧
      o1.request = none ∧
      handleTranslateMessage o1.state 0 .networkError = some o2 ∧
      o2.request = none ∧
      o2.state.messages = [{ role := "assistant", content := "Hello",
                             translatedContent := some "नमस्ते" }] ∧
      o2.state.messages[0]? = some { role := "assistant", content := "Hello",
                                     translatedContent := some "नमस्ते" } :=
  toggleTranslation_twice_restores
    { initialState with
        selectedLanguage := "hi"
        messages := [{ role := "assistant", content := "Hello",
                       translatedContent := some "नमस्ते" }] }
    0
    { role := "assistant", content := "Hello", translatedContent := some "नमस्ते" }
    "नमस्ते" .networkError .networkError (by decide) rfl rfl (by decide) (by decide)

/-- C2 counterexample: a prior analysis result survives a failed upload;
the handler never clears documentAnalysis, so the final result is the
stale report rather than the empty result the claim requires. -/
theorem analyzeDocument_stale_result_counterexample :
    (handleFileUpload { initialState with documentAnalysis := some "old report" }
        (some "doc.png") true .networkError (.ok (some "unused"))).documentAnalysis
      = some "old report" := rfl

/-- C2 amended: analyzeDocument sets analysis-loading and clears the
error but leaves the prior analysis result in place; when the upload or
the vision step fails, the final state has analysis-loading false, the
fixed analysis error string, and the analysis result it had before the
call. -/
theorem analyzeDocument_failure_state (s : SessionState) (f : String) (g : Bool)
    (up : UploadOutcome) (vr : Except Unit (Option String))
    (hfail : uploadImage f up = .error () ∨
      ∃ url, uploadImage f up = .ok url ∧ getGroqVisionAnalysis g url vr = .error ()) :
    fileUploadIntermediate s = { s with isAnalyzing := true, error := none } ∧
    handleFileUpload s (some f) g up vr =
      { s with error := some analysisErrorMessage, isAnalyzing := false } := by
  refine ⟨rfl, ?_⟩
  unfold handleFileUpload fileUploadIntermediate
  rcases hfail with h | ⟨url, h1, h2⟩
  · simp [h]
  · simp [h1, h2]

/-- C2 witness: a concrete failed upload keeps the stale analysis result
and reports the fixed analysis error. -/
theorem analyzeDocument_failure_state_witness :
    handleFileUpload { initialState with documentAnalysis := some "old report" }
        (some "doc.png") true .networkError (.ok (some "unused"))
      = { initialState with
          documentAnalysis := some "old report"
          error := some analysisErrorMessage
          isAnalyzing := false } :=
  (analyzeDocument_failure_state
    { initialState with documentAnalysis := some "old report" }
    "doc.png" true .networkError (.ok (some "unused")) (Or.inl rfl)).2

/-- C7: each of the three flows catches every failure kind at its
boundary, sets the single fixed user-facing message of that flow, and
returns its loading flag, where it has one, to false. -/
theorem flows_catch_failures :
    (∀ (s : SessionState) (g : Bool) (r : Except Unit (Option String)),
        jsTrim s.inputMessage ≠ "" → s.isLoading = false →
        getGroqChatCompletion g
            (s.messages ++ [{ role := "user", content := s.inputMessage }]) r = .error () →
        (handleSendMessage s g r).1.error = some chatErrorMessage ∧
        (handleSendMessage s g r).1.isLoading = false) ∧
    (∀ (s : SessionState) (i : Nat) (m : Message) (f : FetchOutcome),
        s.selectedLanguage ≠ "en" → s.messages[i]? = some m →
        truthyStr m.translatedContent = false →
        translateText m.content s.selectedLanguage f = .error () →
        ∃ o, handleTranslateMessage s i f = some o ∧
          o.state.error = some translateErrorMessage) ∧
    (∀ (s : SessionState) (f : String) (g : Bool) (up : UploadOutcome)
        (vr : Except Unit (Option String)),
        (uploadImage f up = .error () ∨
          ∃ url, uploadImage f up = .ok url ∧ getGroqVisionAnalysis g url vr = .error ()) →
        (handleFileUpload s (some f) g up vr).error = some analysisErrorMessage ∧
        (handleFileUpload s (some f) g up vr).isAnalyzing = false) := by
  refine ⟨?_, ?_, ?_⟩
  · intro s g r hne hl he
    unfold handleSendMessage
    rw [sendMessage_guard_false s hne hl]
    simp [he, sendMessageIntermediate]
  · intro s i m f hl hm ht hf
    refine ⟨{ state := { s with error := some translateErrorMessage }
              request := some (m.content, s.selectedLanguage) }, ?_, rfl⟩
    unfold handleTranslateMessage
    rw [if_neg hl, hm]
    dsimp only
    rw [ht, hf]
    simp
  · intro s f g up vr hfail
    unfold handleFileUpload fileUploadIntermediate
    rcases hfail with h | ⟨url, h1, h2⟩
    · simp [h]
    · simp [h1, h2]

/-- C7 witness: one concrete failure of each flow: an uninitialized chat
client, a translation body with a non-success status, and a non-ok
upload response. -/
theorem flows_catch_failures_witness :
    (handleSendMessage { initialState with inputMessage := "What is bail?" } false
        (.ok (some "ignored"))).1.error = some chatErrorMessage ∧
    (∃ o, handleTranslateMessage { initialState with selectedLanguage := "hi" } 0
        (.ok 500 "ignored") = some o ∧ o.state.error = some translateErrorMessage) ∧
    (handleFileUpload initialState (some "doc.png") true (.response false "x")
        (.ok (some "unused"))).error = some analysisErrorMessage := by
  have h := flows_catch_failures
  refine ⟨(h.1 { initialState with inputMessage := "What is bail?" } false
      (.ok (some "ignored")) (by decide) rfl rfl).1,
    h.2.1 { initialState with selectedLanguage := "hi" } 0
      { role := "assistant",
        content := "Hello! How can I assist you with the Indian Department of Justice today?" }
      (.ok 500 "ignored") (by decide) rfl rfl rfl,
    (h.2.2 initialState "doc.png" true (.response false "x")
      (.ok (some "unused")) (Or.inl rfl)).1⟩
